import Mathlib

/-!
Verification of the Starferry plugin lifecycle manager and of the
TradingView plugin, embedded from `src/starferry/main.py` and
`src/plugins/tradingview_mpc/__init__.py`.

The embedding models the effectful Python code as pure state-passing
functions: the environment's contribution (whether an import succeeds,
what a plugin's `setup` does, what an upstream HTTP request returns) is
an explicit input, and the code's observable actions (registry writes,
router mounts, log lines, task cancellations) are explicit outputs.
-/

namespace Starferry

/-! ## Plugin manager (src/starferry/main.py, class PluginManager) -/

/-- Behaviour of a plugin module's `setup(app)` coroutine: it can raise an
exception, return a falsy value (`None`), or return a (truthy) router
handle.  Routers are identified by an opaque string handle. -/
inductive SetupOutcome
  | raises (msg : String)
  | returnsNone
  | returnsRouter (router : String)
  deriving DecidableEq, Repr

/-- A plugin candidate as yielded by `pkgutil.iter_modules([plugins_dir])`
in `load_plugins`, together with the environment facts `load_plugins`
observes about it: whether it is a package, whether `importlib.import_module`
succeeds, whether the module has a `setup` attribute, what its `setup`
does, whether it has a `shutdown` attribute and whether that raises. -/
structure Candidate where
  name : String
  ispkg : Bool
  importOk : Bool
  hasSetup : Bool
  setup : SetupOutcome
  hasShutdown : Bool
  shutdownRaises : Bool
  deriving DecidableEq, Repr

/-- Python dict assignment `d[k] = v`: overwrites in place when the key is
present (keeping its position), appends otherwise. -/
def dictInsert (k : String) (v : α) : List (String × α) → List (String × α)
  | [] => [(k, v)]
  | (k', v') :: rest => if k' = k then (k, v) :: rest else (k', v') :: dictInsert k v rest

/-- State built up by `PluginManager.load_plugins`: the two dictionaries
`self.plugins` and `self.plugin_routers`, the `app.include_router` calls
made (mount path and router handle, in order), the `logger.error` lines,
the `logger.info` lines, and the list of plugins on which `setup` was
invoked (in order, whether or not it raised). -/
structure ManagerState where
  plugins : List (String × Candidate)
  plugin_routers : List (String × String)
  mounted : List (String × String)
  errorLog : List String
  infoLog : List String
  setupCalled : List String
  deriving DecidableEq, Repr

def ManagerState.empty : ManagerState :=
  { plugins := [], plugin_routers := [], mounted := [], errorLog := [],
    infoLog := [], setupCalled := [] }

/-- The body of the `for finder, name, ispkg in pkgutil.iter_modules(...)`
loop in `load_plugins` (main.py lines 36-54), for one candidate.  The
`try` block covers the import, the `setup` call, the mount and the
registry write; any exception inside it is caught and logged with
`logger.error`, after which the loop moves to the next candidate. -/
def loadOne (st : ManagerState) (c : Candidate) : ManagerState :=
  if c.ispkg then
    if c.importOk then
      if c.hasSetup then
        let st := { st with setupCalled := st.setupCalled ++ [c.name] }
        match c.setup with
        | .raises msg =>
            { st with errorLog :=
                st.errorLog ++ ["Failed to load plugin " ++ c.name ++ ": " ++ msg] }
        | .returnsNone =>
            { st with plugins := dictInsert c.name c st.plugins,
                      infoLog := st.infoLog ++ ["Loaded plugin: " ++ c.name] }
        | .returnsRouter r =>
            { st with mounted := st.mounted ++ [("/plugins/" ++ c.name, r)],
                      plugin_routers := dictInsert c.name r st.plugin_routers,
                      plugins := dictInsert c.name c st.plugins,
                      infoLog := st.infoLog ++ ["Loaded plugin: " ++ c.name] }
      else st
    else
      { st with errorLog := st.errorLog ++ ["Failed to load plugin " ++ c.name] }
  else st

/-- `PluginManager.load_plugins` over the discovered candidate sequence
(the plugins-directory-missing early return contributes no candidates). -/
def load_plugins (cands : List Candidate) : ManagerState :=
  cands.foldl loadOne ManagerState.empty

/-- Observable actions of `PluginManager.shutdown_plugins`: the plugins on
which `shutdown` was invoked (in registry order), and the log lines. -/
structure ShutdownState where
  attempted : List String
  errorLog : List String
  infoLog : List String
  deriving DecidableEq, Repr

/-- Body of the `for name, plugin in self.plugins.items()` loop in
`shutdown_plugins` (main.py lines 58-64): plugins lacking a `shutdown`
attribute are skipped; a raising `shutdown` is caught and logged and the
loop continues. -/
def shutdownOne (r : ShutdownState) (item : String × Candidate) : ShutdownState :=
  if item.2.hasShutdown then
    if item.2.shutdownRaises then
      { r with attempted := r.attempted ++ [item.1],
               errorLog := r.errorLog ++ ["Error shutting down plugin " ++ item.1] }
    else
      { r with attempted := r.attempted ++ [item.1],
               infoLog := r.infoLog ++ ["Shutdown plugin: " ++ item.1] }
  else r

/-- `PluginManager.shutdown_plugins` (main.py lines 56-64): iterates the
registry calling each plugin's `shutdown`.  The method body never writes
to `self.plugins` or `self.plugin_routers`, so the manager state is
returned unchanged alongside the shutdown actions. -/
def shutdown_plugins (st : ManagerState) : ManagerState × ShutdownState :=
  (st, st.plugins.foldl shutdownOne ⟨[], [], []⟩)

/-- Does the candidate's `setup` raise? -/
def setupRaises (c : Candidate) : Bool :=
  match c.setup with
  | .raises _ => true
  | _ => false

/-- Does the candidate's `setup` complete without raising? -/
def setupSucceeds (c : Candidate) : Bool :=
  match c.setup with
  | .raises _ => false
  | _ => true

/-- Does the candidate's `setup` return a truthy router? -/
def returnsTruthyRouter (c : Candidate) : Bool :=
  match c.setup with
  | .returnsRouter _ => true
  | _ => false

/-- Mount actions `loadOne` performs for one candidate that imports fine
and has `setup`. -/
def mountActions (c : Candidate) : List (String × String) :=
  match c.setup with
  | .returnsRouter r => [("/plugins/" ++ c.name, r)]
  | _ => []

/-- Error-log lines `loadOne` emits for one candidate that imports fine
and has `setup`. -/
def errActions (c : Candidate) : List String :=
  match c.setup with
  | .raises msg => ["Failed to load plugin " ++ c.name ++ ": " ++ msg]
  | _ => []

/-! ## TradingView plugin (src/plugins/tradingview_mpc/init module)

The plugin talks to an upstream HTTP service through `httpx`.  Every
upstream interaction is embedded as an explicit outcome value: a request
either raises an exception or yields a result. -/

/-- A minimal JSON value model for request/response bodies. -/
inductive Json
  | str (s : String)
  | num (n : Int)
  | obj (fields : List (String × Json))

/-- The error dictionary every client data method builds in its `except`
branch: a dict with an "error" key holding the exception message. -/
def errJson (e : String) : Json := Json.obj [("error", Json.str e)]

/-- State of the module-global `tv_client` object (class
`TradingViewClient`): only the `connected` flag matters to control flow;
`api_url` and the inner `httpx` client are opaque. -/
structure TVClient where
  connected : Bool
  deriving DecidableEq, Repr

/-- Outcome of the `GET (api_url)/status` probe inside
`TradingViewClient.connect`: the request either raises or yields an HTTP
status code. -/
inductive ProbeOutcome
  | raises (msg : String)
  | status (code : Nat)
  deriving DecidableEq, Repr

/-- The body of `TradingViewClient.connect` with the `try`/`except`
removed: it propagates the exception of a raising request, and otherwise
sets `connected` on a 200 response, returning the success flag. -/
def connectBody (c : TVClient) (o : ProbeOutcome) : Except String (TVClient × Bool) :=
  match o with
  | .raises msg => .error msg
  | .status code =>
      if code = 200 then .ok ({ c with connected := true }, true)
      else .ok (c, false)

/-- `TradingViewClient.connect` (plugin lines 27-37): the whole body sits
inside `try`/`except Exception`; a raised exception is caught, logged and
turned into a `False` return with the client state unchanged. -/
def connect (c : TVClient) (o : ProbeOutcome) : TVClient × Bool :=
  match connectBody c o with
  | .error _ => (c, false)
  | .ok r => r

/-- Did a probe outcome amount to a failed connect attempt (either the
request raised, or the status code was not 200)? -/
def failedProbe : ProbeOutcome → Bool
  | .raises _ => true
  | .status code => decide (code ≠ 200)

/-- One iteration of the `while True` loop of `connection_monitor`
(plugin lines 603-607): attempt `connect` only when not connected. -/
def monitorStep (c : TVClient) (o : ProbeOutcome) : TVClient :=
  if c.connected then c else (connect c o).1

/-- The sleep executed unconditionally at the end of every
`connection_monitor` iteration: `asyncio.sleep(60)`. -/
def sleepSeconds : Nat := 60

/-- The `connection_monitor` loop after `n` iterations, given the stream
of probe outcomes, together with the seconds slept so far.  Iteration `i`
uses outcome `os i`; every iteration adds the same fixed sleep. -/
def monitorRun (c : TVClient) (os : Nat → ProbeOutcome) : Nat → TVClient × Nat
  | 0 => (c, 0)
  | n + 1 =>
      let p := monitorRun c os n
      (monitorStep p.1 (os n), p.2 + sleepSeconds)

/-! ### Client data methods

Each data method of `TradingViewClient` wraps one upstream request in
`try`/`except Exception`, returns the parsed JSON body when the request
and parse succeed, and returns the error dictionary otherwise.  The
request-plus-parse is embedded as an `Except String Json` input. -/

def TVClient.get_symbols (upstream : Except String Json) : Json :=
  match upstream with
  | .ok j => j
  | .error e => errJson e

def TVClient.get_chart_data (upstream : Except String Json) : Json :=
  match upstream with
  | .ok j => j
  | .error e => errJson e

def TVClient.get_simple_chart (upstream : Except String Json) : Json :=
  match upstream with
  | .ok j => j
  | .error e => errJson e

def TVClient.get_replay_mode (upstream : Except String Json) : Json :=
  match upstream with
  | .ok j => j
  | .error e => errJson e

def TVClient.login (upstream : Except String Json) : Json :=
  match upstream with
  | .ok j => j
  | .error e => errJson e

def TVClient.search (upstream : Except String Json) : Json :=
  match upstream with
  | .ok j => j
  | .error e => errJson e

def TVClient.get_drawings (upstream : Except String Json) : Json :=
  match upstream with
  | .ok j => j
  | .error e => errJson e

def TVClient.get_from_to_data (upstream : Except String Json) : Json :=
  match upstream with
  | .ok j => j
  | .error e => errJson e

def TVClient.get_built_in_indicator (upstream : Except String Json) : Json :=
  match upstream with
  | .ok j => j
  | .error e => errJson e

def TVClient.get_custom_timeframe (upstream : Except String Json) : Json :=
  match upstream with
  | .ok j => j
  | .error e => errJson e

def TVClient.get_graphic_indicator (upstream : Except String Json) : Json :=
  match upstream with
  | .ok j => j
  | .error e => errJson e

def TVClient.get_multiple_sync_fetch (upstream : Except String Json) : Json :=
  match upstream with
  | .ok j => j
  | .error e => errJson e

def TVClient.get_custom_chart_type (upstream : Except String Json) : Json :=
  match upstream with
  | .ok j => j
  | .error e => errJson e

def TVClient.get_fake_replay_mode (upstream : Except String Json) : Json :=
  match upstream with
  | .ok j => j
  | .error e => errJson e

def TVClient.get_private_indicators (upstream : Except String Json) : Json :=
  match upstream with
  | .ok j => j
  | .error e => errJson e

def TVClient.manage_pine_permission (upstream : Except String Json) : Json :=
  match upstream with
  | .ok j => j
  | .error e => errJson e

def TVClient.get_error_handling (upstream : Except String Json) : Json :=
  match upstream with
  | .ok j => j
  | .error e => errJson e

/-! ### Plugin routes -/

/-- The routes registered on the plugin's `APIRouter`. -/
inductive Route
  | statusRoute | symbols | chart | simpleChart | replayMode | loginRoute
  | searchRoute | drawings | fromToData | builtInIndicator | customTimeframe
  | graphicIndicator | multipleSyncFetch | customChartType | fakeReplayMode
  | privateIndicators | pinePermission | errorHandling
  deriving DecidableEq, Repr

/-- The operational (data-serving) routes, per the spec's classification:
every route except the `GET /status` health view. -/
def Route.isOperational : Route → Bool
  | .statusRoute => false
  | _ => true

/-- An HTTP response produced by a route handler: a normal (200) response
with a JSON body, or an `HTTPException` with a status code and detail. -/
inductive Response
  | ok (body : Json)
  | httpError (code : Nat) (detail : String)

/-- The guard `tv_client and tv_client.connected` shared by the route
handlers: the module-global `tv_client` may be `None` (falsy); a client
object is always truthy, so the guard reduces to its `connected` flag. -/
def clientReady (tv : Option TVClient) : Bool :=
  match tv with
  | none => false
  | some c => c.connected

/-- The detail string of the 503 `HTTPException` raised by every guarded
route. -/
def notConnected : Response :=
  Response.httpError 503 "TradingView API not connected"

/-- The route handlers of the plugin (plugin lines 375-587), each embedded
over the global client state and the outcome of the one upstream call its
client method makes.  `GET /status` returns a normal response in every
state; every other handler first checks
`if not tv_client or not tv_client.connected` and raises the 503
`HTTPException`, and otherwise returns the client method's result as a
normal response. -/
def handle (tv : Option TVClient) (r : Route) (upstream : Except String Json) : Response :=
  match r with
  | .statusRoute =>
      if clientReady tv then Response.ok (Json.obj [("status", Json.str "connected")])
      else Response.ok (Json.obj [("status", Json.str "disconnected")])
  | .symbols =>
      if clientReady tv then Response.ok (TVClient.get_symbols upstream) else notConnected
  | .chart =>
      if clientReady tv then Response.ok (TVClient.get_chart_data upstream) else notConnected
  | .simpleChart =>
      if clientReady tv then Response.ok (TVClient.get_simple_chart upstream) else notConnected
  | .replayMode =>
      if clientReady tv then Response.ok (TVClient.get_replay_mode upstream) else notConnected
  | .loginRoute =>
      if clientReady tv then Response.ok (TVClient.login upstream) else notConnected
  | .searchRoute =>
      if clientReady tv then Response.ok (TVClient.search upstream) else notConnected
  | .drawings =>
      if clientReady tv then Response.ok (TVClient.get_drawings upstream) else notConnected
  | .fromToData =>
      if clientReady tv then Response.ok (TVClient.get_from_to_data upstream) else notConnected
  | .builtInIndicator =>
      if clientReady tv then Response.ok (TVClient.get_built_in_indicator upstream) else notConnected
  | .customTimeframe =>
      if clientReady tv then Response.ok (TVClient.get_custom_timeframe upstream) else notConnected
  | .graphicIndicator =>
      if clientReady tv then Response.ok (TVClient.get_graphic_indicator upstream) else notConnected
  | .multipleSyncFetch =>
      if clientReady tv then Response.ok (TVClient.get_multiple_sync_fetch upstream) else notConnected
  | .customChartType =>
      if clientReady tv then Response.ok (TVClient.get_custom_chart_type upstream) else notConnected
  | .fakeReplayMode =>
      if clientReady tv then Response.ok (TVClient.get_fake_replay_mode upstream) else notConnected
  | .privateIndicators =>
      if clientReady tv then Response.ok (TVClient.get_private_indicators upstream) else notConnected
  | .pinePermission =>
      if clientReady tv then Response.ok (TVClient.manage_pine_permission upstream) else notConnected
  | .errorHandling =>
      if clientReady tv then Response.ok (TVClient.get_error_handling upstream) else notConnected

/-! ### Plugin setup and shutdown, host lifespan teardown -/

/-- The module-global state of the plugin relevant to lifecycle claims:
the global `tv_client` and the supervisor task handle the plugin's
`setup` stores in `app.state.tv_connection_task`. -/
structure TVPluginRuntime where
  tv_client : Option TVClient
  tv_connection_task : Option String
  deriving DecidableEq, Repr

/-- The plugin's `setup(app)` (plugin lines 589-612): builds a client
(initially disconnected), makes one `connect` attempt, starts the
`connection_monitor` task storing its handle on `app.state`, and returns
the router (truthy). -/
def tv_setup (probe : ProbeOutcome) : TVPluginRuntime × Bool :=
  let c : TVClient := { connected := false }
  let c := (connect c probe).1
  ({ tv_client := some c, tv_connection_task := some "connection_monitor" }, true)

/-- The plugin's `shutdown()` (plugin lines 614-620): closes the client
and clears the global `tv_client`.  The second component is the list of
task handles the function cancels; the body never touches
`tv_connection_task`, so it cancels nothing. -/
def tv_shutdown (rt : TVPluginRuntime) : TVPluginRuntime × List String :=
  ({ rt with tv_client := none }, [])

/-- The set of tasks cancelled and awaited during the `lifespan` teardown
(main.py lines 80-88): first `shutdown_plugins` runs, contributing
whatever tasks the plugin shutdowns cancel, then `cleanup_task` (the ip
tracker task) is cancelled and awaited.  No other cancellation occurs
anywhere in the teardown path. -/
def lifespan_teardown_cancelled (pluginCancelled : List String) : List String :=
  pluginCancelled ++ ["cleanup_ip_tracker"]

/-! ## Helper lemmas -/

lemma dictInsert_fresh {α : Type} (k : String) (v : α) (l : List (String × α))
    (h : ∀ p ∈ l, p.1 ≠ k) : dictInsert k v l = l ++ [(k, v)] := by
  induction l with
  | nil => rfl
  | cons p rest ih =>
      obtain ⟨k', v'⟩ := p
      have hk : k' ≠ k := h (k', v') (List.mem_cons_self _ _)
      simp [dictInsert, hk, ih fun q hq => h q (List.mem_cons_of_mem _ hq)]

lemma filter_map_comm {α β : Type} (f : α → β) (p : β → Bool) (l : List α) :
    (l.map f).filter p = (l.filter fun a => p (f a)).map f := by
  induction l with
  | nil => rfl
  | cons a rest ih => by_cases h : p (f a) = true <;> simp [h, ih]

/-- Append-only effect of `loadOne` on the mount actions, error log and
setup-call trace, for a package candidate that imports and has `setup`. -/
lemma loadOne_actions (st : ManagerState) (c : Candidate)
    (hp : c.ispkg = true) (hi : c.importOk = true) (hs : c.hasSetup = true) :
    (loadOne st c).mounted = st.mounted ++ mountActions c
  ∧ (loadOne st c).errorLog = st.errorLog ++ errActions c
  ∧ (loadOne st c).setupCalled = st.setupCalled ++ [c.name] := by
  cases hcs : c.setup <;> simp [loadOne, hp, hi, hs, hcs, mountActions, errActions]

/-- The fold underlying `load_plugins` only appends mount actions, error
lines and setup calls, one candidate at a time. -/
lemma load_actions (cands : List Candidate) (st : ManagerState)
    (hall : ∀ c ∈ cands, c.ispkg = true ∧ c.importOk = true ∧ c.hasSetup = true) :
    (cands.foldl loadOne st).mounted = st.mounted ++ (cands.map mountActions).flatten
  ∧ (cands.foldl loadOne st).errorLog = st.errorLog ++ (cands.map errActions).flatten
  ∧ (cands.foldl loadOne st).setupCalled = st.setupCalled ++ cands.map Candidate.name := by
  induction cands generalizing st with
  | nil => simp
  | cons c rest ih =>
      obtain ⟨hp, hi, hs⟩ := hall c (List.mem_cons_self _ _)
      obtain ⟨k1, k2, k3⟩ := loadOne_actions st c hp hi hs
      obtain ⟨i1, i2, i3⟩ := ih (loadOne st c) fun c' hc' => hall c' (List.mem_cons_of_mem _ hc')
      refine ⟨?_, ?_, ?_⟩ <;>
        simp [List.foldl_cons, i1, i2, i3, k1, k2, k3, List.append_assoc]

/-- Registry contents produced by the fold underlying `load_plugins`:
with pairwise-distinct candidate names that are fresh for the starting
registry, exactly the candidates whose `setup` completes are appended. -/
lemma load_registry (cands : List Candidate) (st : ManagerState)
    (hall : ∀ c ∈ cands, c.ispkg = true ∧ c.importOk = true ∧ c.hasSetup = true)
    (hnodup : (cands.map Candidate.name).Nodup)
    (hfresh : ∀ c ∈ cands, ∀ p ∈ st.plugins, p.1 ≠ c.name) :
    (cands.foldl loadOne st).plugins
      = st.plugins ++ (cands.filter setupSucceeds).map fun c => (c.name, c) := by
  induction cands generalizing st with
  | nil => simp
  | cons c rest ih =>
      obtain ⟨hp, hi, hs⟩ := hall c (List.mem_cons_self _ _)
      have hfst : ∀ p ∈ st.plugins, p.1 ≠ c.name := hfresh c (List.mem_cons_self _ _)
      have hcnotin : c.name ∉ rest.map Candidate.name := by
        simp only [List.map_cons, List.nodup_cons] at hnodup
        exact hnodup.1
      have key : (loadOne st c).plugins
          = st.plugins ++ if setupSucceeds c then [(c.name, c)] else [] := by
        cases hcs : c.setup <;>
          simp [loadOne, hp, hi, hs, hcs, setupSucceeds, dictInsert_fresh _ _ _ hfst]
      have hfresh' : ∀ c' ∈ rest, ∀ p ∈ (loadOne st c).plugins, p.1 ≠ c'.name := by
        intro c' hc' p hpmem
        rw [key] at hpmem
        rcases List.mem_append.mp hpmem with h1 | h2
        · exact hfresh c' (List.mem_cons_of_mem _ hc') p h1
        · have hpc : p = (c.name, c) := by
            by_cases hsucc : setupSucceeds c = true <;> simp [hsucc] at h2
            exact h2
          subst hpc
          intro heq
          apply hcnotin
          rw [show c.name = c'.name from heq]
          exact List.mem_map_of_mem Candidate.name hc'
      have hnr : (rest.map Candidate.name).Nodup := by
        simp only [List.map_cons, List.nodup_cons] at hnodup
        exact hnodup.2
      rw [List.foldl_cons,
        ih (loadOne st c) (fun c' hc' => hall c' (List.mem_cons_of_mem _ hc')) hnr hfresh',
        key]
      by_cases hsucc : setupSucceeds c = true <;>
        simp [hsucc, List.filter_cons, List.append_assoc]

lemma mount_join_length (cands : List Candidate) :
    ((cands.map mountActions).flatten).length = (cands.filter returnsTruthyRouter).length := by
  induction cands with
  | nil => rfl
  | cons c rest ih =>
      cases hcs : c.setup <;>
        simp [mountActions, returnsTruthyRouter, hcs, List.filter_cons, ih]

lemma err_join_length (cands : List Candidate) :
    ((cands.map errActions).flatten).length = (cands.filter setupRaises).length := by
  induction cands with
  | nil => rfl
  | cons c rest ih =>
      cases hcs : c.setup <;>
        simp [errActions, setupRaises, hcs, List.filter_cons, ih]

/-- `shutdown_plugins` attempts `shutdown` on exactly the registry
entries whose module has a `shutdown` attribute, in registry order,
whether or not any of them raises. -/
lemma shutdown_go (reg : List (String × Candidate)) (r : ShutdownState) :
    (reg.foldl shutdownOne r).attempted
      = r.attempted ++ (reg.filter fun p => p.2.hasShutdown).map Prod.fst := by
  induction reg generalizing r with
  | nil => simp
  | cons p rest ih =>
      have key : (shutdownOne r p).attempted
          = r.attempted ++ if p.2.hasShutdown then [p.1] else [] := by
        by_cases h : p.2.hasShutdown = true <;>
          by_cases h2 : p.2.shutdownRaises = true <;> simp [shutdownOne, h, h2]
      rw [List.foldl_cons, ih]
      by_cases h : p.2.hasShutdown = true <;>
        simp [key, h, List.filter_cons, List.append_assoc]

/-- Is the candidate fully loaded (registered) by `loadOne`: the import
succeeds, the module has `setup`, and `setup` completes. -/
def loadsOk (c : Candidate) : Bool :=
  c.importOk && c.hasSetup && setupSucceeds c

/-- Does `loadOne` mount a router for the candidate: loaded with a truthy
router. -/
def mountsRouter (c : Candidate) : Bool :=
  c.importOk && c.hasSetup && returnsTruthyRouter c

/-- Does `loadOne` log a load failure for the candidate: either its
module import raises, or `setup` exists and raises.  (A module without
`setup` is skipped with no log line.) -/
def loadFails (c : Candidate) : Bool :=
  !c.importOk || (c.hasSetup && setupRaises c)

/-- Is `setup` invoked on the candidate: the import succeeds and the
module has a `setup` attribute. -/
def setupInvoked (c : Candidate) : Bool :=
  c.importOk && c.hasSetup

/-- Mount actions `loadOne` performs for an arbitrary package candidate,
failed imports and missing `setup` included. -/
def mountActionsG (c : Candidate) : List (String × String) :=
  if c.importOk = true then (if c.hasSetup = true then mountActions c else []) else []

/-- Error-log lines `loadOne` emits for an arbitrary package candidate:
one line when the import raises, one when `setup` raises. -/
def errActionsG (c : Candidate) : List String :=
  if c.importOk = true then (if c.hasSetup = true then errActions c else [])
  else ["Failed to load plugin " ++ c.name]

/-- Setup invocations `loadOne` performs for an arbitrary package
candidate. -/
def setupCalledG (c : Candidate) : List String :=
  if setupInvoked c then [c.name] else []

/-- Effect of `loadOne` on mounts, error log and setup-call trace for an
arbitrary package candidate. -/
lemma loadOne_effects (st : ManagerState) (c : Candidate) (hp : c.ispkg = true) :
    (loadOne st c).mounted = st.mounted ++ mountActionsG c
  ∧ (loadOne st c).errorLog = st.errorLog ++ errActionsG c
  ∧ (loadOne st c).setupCalled = st.setupCalled ++ setupCalledG c := by
  by_cases hio : c.importOk = true
  · by_cases hhs : c.hasSetup = true
    · cases hcs : c.setup <;>
        simp [loadOne, hp, hio, hhs, hcs, mountActionsG, errActionsG, setupCalledG,
          setupInvoked, mountActions, errActions]
    · rw [Bool.not_eq_true] at hhs
      simp [loadOne, hp, hio, hhs, mountActionsG, errActionsG, setupCalledG, setupInvoked]
  · rw [Bool.not_eq_true] at hio
    simp [loadOne, hp, hio, mountActionsG, errActionsG, setupCalledG, setupInvoked]

/-- Effect of `loadOne` on the registry for an arbitrary package
candidate whose name is fresh: appended exactly when it loads. -/
lemma loadOne_registry (st : ManagerState) (c : Candidate) (hp : c.ispkg = true)
    (hfst : ∀ p ∈ st.plugins, p.1 ≠ c.name) :
    (loadOne st c).plugins = st.plugins ++ if loadsOk c then [(c.name, c)] else [] := by
  by_cases hio : c.importOk = true
  · by_cases hhs : c.hasSetup = true
    · cases hcs : c.setup <;>
        simp [loadOne, hp, hio, hhs, hcs, loadsOk, setupSucceeds,
          dictInsert_fresh _ _ _ hfst]
    · rw [Bool.not_eq_true] at hhs
      simp [loadOne, hp, hio, hhs, loadsOk]
  · rw [Bool.not_eq_true] at hio
    simp [loadOne, hp, hio, loadsOk]

/-- The fold underlying `load_plugins` appends mount actions, error lines
and setup calls per candidate — package candidates only assumed, so this
covers import failures and modules without `setup`. -/
lemma load_effects (cands : List Candidate) (st : ManagerState)
    (hpkg : ∀ c ∈ cands, c.ispkg = true) :
    (cands.foldl loadOne st).mounted = st.mounted ++ (cands.map mountActionsG).flatten
  ∧ (cands.foldl loadOne st).errorLog = st.errorLog ++ (cands.map errActionsG).flatten
  ∧ (cands.foldl loadOne st).setupCalled
      = st.setupCalled ++ (cands.map setupCalledG).flatten := by
  induction cands generalizing st with
  | nil => simp
  | cons c rest ih =>
      have hp := hpkg c (List.mem_cons_self _ _)
      obtain ⟨k1, k2, k3⟩ := loadOne_effects st c hp
      obtain ⟨i1, i2, i3⟩ := ih (loadOne st c) fun c hc => hpkg c (List.mem_cons_of_mem _ hc)
      refine ⟨?_, ?_, ?_⟩ <;>
        simp [List.foldl_cons, i1, i2, i3, k1, k2, k3, List.append_assoc]

/-- Registry contents of the fold underlying `load_plugins` for arbitrary
package candidates with pairwise-distinct fresh names: exactly the
candidates that load are appended. -/
lemma load_registryG (cands : List Candidate) (st : ManagerState)
    (hpkg : ∀ c ∈ cands, c.ispkg = true)
    (hnodup : (cands.map Candidate.name).Nodup)
    (hfresh : ∀ c ∈ cands, ∀ p ∈ st.plugins, p.1 ≠ c.name) :
    (cands.foldl loadOne st).plugins
      = st.plugins ++ (cands.filter loadsOk).map fun c => (c.name, c) := by
  induction cands generalizing st with
  | nil => simp
  | cons c rest ih =>
      have hp := hpkg c (List.mem_cons_self _ _)
      have hfst : ∀ p ∈ st.plugins, p.1 ≠ c.name := hfresh c (List.mem_cons_self _ _)
      have hcnotin : c.name ∉ rest.map Candidate.name := by
        simp only [List.map_cons, List.nodup_cons] at hnodup
        exact hnodup.1
      have key := loadOne_registry st c hp hfst
      have hfresh2 : ∀ c2 ∈ rest, ∀ p ∈ (loadOne st c).plugins, p.1 ≠ c2.name := by
        intro c2 hc2 p hpmem
        rw [key] at hpmem
        rcases List.mem_append.mp hpmem with h1 | h2
        · exact hfresh c2 (List.mem_cons_of_mem _ hc2) p h1
        · have hpc : p = (c.name, c) := by
            by_cases hok : loadsOk c = true <;> simp [hok] at h2
            exact h2
          subst hpc
          intro heq
          apply hcnotin
          rw [show c.name = c2.name from heq]
          exact List.mem_map_of_mem Candidate.name hc2
      have hnr : (rest.map Candidate.name).Nodup := by
        simp only [List.map_cons, List.nodup_cons] at hnodup
        exact hnodup.2
      rw [List.foldl_cons,
        ih (loadOne st c) (fun c2 hc2 => hpkg c2 (List.mem_cons_of_mem _ hc2)) hnr hfresh2,
        key]
      by_cases hok : loadsOk c = true <;>
        simp [hok, List.filter_cons, List.append_assoc]

lemma mountG_join_length (cands : List Candidate) :
    ((cands.map mountActionsG).flatten).length = (cands.filter mountsRouter).length := by
  induction cands with
  | nil => rfl
  | cons c rest ih =>
      by_cases hio : c.importOk = true
      · by_cases hhs : c.hasSetup = true
        · cases hcs : c.setup <;>
            simp [mountActionsG, mountsRouter, mountActions, returnsTruthyRouter,
              hio, hhs, hcs, List.filter_cons, ih]
        · rw [Bool.not_eq_true] at hhs
          simp [mountActionsG, mountsRouter, hio, hhs, List.filter_cons, ih]
      · rw [Bool.not_eq_true] at hio
        simp [mountActionsG, mountsRouter, hio, List.filter_cons, ih]

lemma errG_join_length (cands : List Candidate) :
    ((cands.map errActionsG).flatten).length = (cands.filter loadFails).length := by
  induction cands with
  | nil => rfl
  | cons c rest ih =>
      by_cases hio : c.importOk = true
      · by_cases hhs : c.hasSetup = true
        · cases hcs : c.setup <;>
            simp [errActionsG, loadFails, errActions, setupRaises,
              hio, hhs, hcs, List.filter_cons, ih]
        · rw [Bool.not_eq_true] at hhs
          simp [errActionsG, loadFails, hio, hhs, List.filter_cons, ih]
      · rw [Bool.not_eq_true] at hio
        simp [errActionsG, loadFails, hio, List.filter_cons, ih]

lemma setupCalledG_join (cands : List Candidate) :
    ((cands.map setupCalledG).flatten) = (cands.filter setupInvoked).map Candidate.name := by
  induction cands with
  | nil => rfl
  | cons c rest ih =>
      by_cases h : setupInvoked c = true <;>
        simp [setupCalledG, h, List.filter_cons, ih]

/-- Full characterization of `load_plugins` for well-formed candidates
with pairwise-distinct names: registry, mount count, error count and
setup-call trace. -/
lemma load_plugins_spec (cands : List Candidate)
    (hall : ∀ c ∈ cands, c.ispkg = true ∧ c.importOk = true ∧ c.hasSetup = true)
    (hnodup : (cands.map Candidate.name).Nodup) :
    (load_plugins cands).plugins = (cands.filter setupSucceeds).map (fun c => (c.name, c))
  ∧ (load_plugins cands).mounted.length = (cands.filter returnsTruthyRouter).length
  ∧ (load_plugins cands).errorLog.length = (cands.filter setupRaises).length
  ∧ (load_plugins cands).setupCalled = cands.map Candidate.name := by
  obtain ⟨h1, h2, h3⟩ := load_actions cands ManagerState.empty hall
  have hreg := load_registry cands ManagerState.empty hall hnodup
    (by intro c hc p hp; simp [ManagerState.empty] at hp)
  refine ⟨?_, ?_, ?_, ?_⟩
  · simpa [load_plugins, ManagerState.empty] using hreg
  · have h1m : (load_plugins cands).mounted = (cands.map mountActions).flatten := by
      simpa [load_plugins, ManagerState.empty] using h1
    rw [h1m]
    exact mount_join_length cands
  · have h2m : (load_plugins cands).errorLog = (cands.map errActions).flatten := by
      simpa [load_plugins, ManagerState.empty] using h2
    rw [h2m]
    exact err_join_length cands
  · simpa [load_plugins, ManagerState.empty] using h3

/-- The `shutdown` attempts made by `shutdown_plugins`, and the fact that
it leaves the manager state untouched. -/
lemma shutdown_plugins_spec (st : ManagerState) :
    (shutdown_plugins st).1 = st
  ∧ (shutdown_plugins st).2.attempted
      = (st.plugins.filter fun p => p.2.hasShutdown).map Prod.fst := by
  refine ⟨rfl, ?_⟩
  simpa using shutdown_go st.plugins ⟨[], [], []⟩

/-! ## Concrete candidates used in witnesses and counterexamples -/

/-- A candidate whose `setup` succeeds but returns a falsy router. -/
def cAlphaNone : Candidate :=
  { name := "alpha", ispkg := true, importOk := true, hasSetup := true,
    setup := .returnsNone, hasShutdown := true, shutdownRaises := false }

/-- A candidate whose import raises. -/
def cBrokenImport : Candidate :=
  { name := "broken", ispkg := true, importOk := false, hasSetup := true,
    setup := .returnsRouter "router_broken", hasShutdown := true, shutdownRaises := false }

/-- A candidate whose `setup` raises. -/
def cRaiser : Candidate :=
  { name := "raiser", ispkg := true, importOk := true, hasSetup := true,
    setup := .raises "boom", hasShutdown := true, shutdownRaises := false }

/-- A candidate whose `setup` succeeds and returns a router. -/
def cFine : Candidate :=
  { name := "fine", ispkg := true, importOk := true, hasSetup := true,
    setup := .returnsRouter "router_fine", hasShutdown := true, shutdownRaises := false }

/-- First of two candidates sharing the mount name "dup". -/
def cDupOne : Candidate :=
  { name := "dup", ispkg := true, importOk := true, hasSetup := true,
    setup := .returnsRouter "router_one", hasShutdown := true, shutdownRaises := false }

/-- Second of two candidates sharing the mount name "dup". -/
def cDupTwo : Candidate :=
  { name := "dup", ispkg := true, importOk := true, hasSetup := true,
    setup := .returnsRouter "router_two", hasShutdown := true, shutdownRaises := false }

/-! ## Claim theorems -/

/-- C1, counterexample.  A single candidate whose `setup` succeeds but
returns a falsy router: `N = 1`, `K = 0` (no failure is logged), the
plugin is registered, yet nothing is mounted — `load_plugins` does not
"register and mount exactly the N−K plugins whose setup succeeded". -/
theorem load_plugins_none_router_not_mounted :
    (load_plugins [cAlphaNone]).errorLog.length = 0
  ∧ (load_plugins [cAlphaNone]).plugins.length = 1
  ∧ ¬ (load_plugins [cAlphaNone]).mounted.length = 1 := by
  decide

/-- C1 (amended).  For any sequence of discovered package candidates
with pairwise-distinct names — import failures, modules without `setup`
and raising setups included, in any position: `load_plugins` registers
exactly the candidates whose import and `setup` both succeeded, mounts
exactly those of them that returned a truthy router, logs one failure for
each candidate whose import or `setup` raised, and invokes `setup` on
every importable candidate with a `setup` attribute, in order.  The
characterization holds whatever failures precede a candidate, so a
failure in one candidate's import or `setup` never prevents the loading
of subsequent candidates. -/
theorem load_plugins_isolation (cands : List Candidate)
    (hpkg : ∀ c ∈ cands, c.ispkg = true)
    (hnodup : (cands.map Candidate.name).Nodup) :
    (load_plugins cands).plugins = (cands.filter loadsOk).map (fun c => (c.name, c))
  ∧ (load_plugins cands).mounted.length = (cands.filter mountsRouter).length
  ∧ (load_plugins cands).errorLog.length = (cands.filter loadFails).length
  ∧ (load_plugins cands).setupCalled = (cands.filter setupInvoked).map Candidate.name := by
  obtain ⟨h1, h2, h3⟩ := load_effects cands ManagerState.empty hpkg
  have hreg := load_registryG cands ManagerState.empty hpkg hnodup
    (by intro c hc p hp; simp [ManagerState.empty] at hp)
  refine ⟨?_, ?_, ?_, ?_⟩
  · simpa [load_plugins, ManagerState.empty] using hreg
  · have h1m : (load_plugins cands).mounted = (cands.map mountActionsG).flatten := by
      simpa [load_plugins, ManagerState.empty] using h1
    rw [h1m]
    exact mountG_join_length cands
  · have h2m : (load_plugins cands).errorLog = (cands.map errActionsG).flatten := by
      simpa [load_plugins, ManagerState.empty] using h2
    rw [h2m]
    exact errG_join_length cands
  · have h3m : (load_plugins cands).setupCalled = (cands.map setupCalledG).flatten := by
      simpa [load_plugins, ManagerState.empty] using h3
    rw [h3m]
    exact setupCalledG_join cands

/-- C1, witness.  Three candidates: the first fails at import, the second
raises during `setup`, the third succeeds with a router.  Exactly the
third is registered and mounted, two failures are logged, and both of
the importable setups were invoked in order — the failed import and the
failed setup prevented neither subsequent candidate from loading. -/
theorem load_plugins_isolation_witness :
    (load_plugins [cBrokenImport, cRaiser, cFine]).plugins = [("fine", cFine)]
  ∧ (load_plugins [cBrokenImport, cRaiser, cFine]).mounted.length = 1
  ∧ (load_plugins [cBrokenImport, cRaiser, cFine]).errorLog.length = 2
  ∧ (load_plugins [cBrokenImport, cRaiser, cFine]).setupCalled = ["raiser", "fine"] := by
  obtain ⟨h1, h2, h3, h4⟩ :=
    load_plugins_isolation [cBrokenImport, cRaiser, cFine] (by decide) (by decide)
  exact ⟨by rw [h1]; decide, by rw [h2]; decide, by rw [h3]; decide, by rw [h4]; decide⟩

/-- C3, counterexample.  Two candidates both resolving to the mount name
"dup": `load_plugins` mounts both routers (not exactly one), logs no
duplicate error, and the second candidate overwrites the first in the
registry — no `DuplicatePluginError` exists anywhere in the code. -/
theorem duplicate_name_no_error :
    (load_plugins [cDupOne, cDupTwo]).mounted.length = 2
  ∧ (load_plugins [cDupOne, cDupTwo]).errorLog = []
  ∧ (load_plugins [cDupOne, cDupTwo]).plugins = [("dup", cDupTwo)]
  ∧ cDupOne ≠ cDupTwo := by
  decide

/-- C3 (amended).  If two candidates resolve to the same mount
identifier, `load_plugins` mounts both route groups under the same path
and the second candidate's registration overwrites the first in the
registry; no error is recorded or logged for either. -/
theorem duplicate_name_overwrites (c1 c2 : Candidate) (n r1 r2 : String)
    (h1n : c1.name = n) (h2n : c2.name = n)
    (h1p : c1.ispkg = true) (h1i : c1.importOk = true) (h1s : c1.hasSetup = true)
    (h2p : c2.ispkg = true) (h2i : c2.importOk = true) (h2s : c2.hasSetup = true)
    (h1r : c1.setup = .returnsRouter r1) (h2r : c2.setup = .returnsRouter r2) :
    (load_plugins [c1, c2]).mounted = [("/plugins/" ++ n, r1), ("/plugins/" ++ n, r2)]
  ∧ (load_plugins [c1, c2]).plugins = [(n, c2)]
  ∧ (load_plugins [c1, c2]).errorLog = [] := by
  subst h1n
  refine ⟨?_, ?_, ?_⟩ <;>
    simp [load_plugins, loadOne, ManagerState.empty, h1p, h1i, h1s, h2p, h2i, h2s,
      h1r, h2r, h2n, dictInsert]

/-- C3, witness: the amended behaviour at the two concrete "dup"
candidates. -/
theorem duplicate_name_overwrites_witness :
    (load_plugins [cDupOne, cDupTwo]).mounted
      = [("/plugins/dup", "router_one"), ("/plugins/dup", "router_two")]
  ∧ (load_plugins [cDupOne, cDupTwo]).plugins = [("dup", cDupTwo)]
  ∧ (load_plugins [cDupOne, cDupTwo]).errorLog = [] :=
  duplicate_name_overwrites cDupOne cDupTwo "dup" "router_one" "router_two"
    rfl rfl rfl rfl rfl rfl rfl rfl rfl rfl

/-- C4, counterexample.  A registry holding one loaded plugin: after
`shutdown_plugins` returns — with the plugin's `shutdown` attempted — the
manager's mapping still contains the entry; the method never clears it. -/
theorem shutdown_registry_not_cleared :
    (shutdown_plugins (load_plugins [cFine])).2.attempted = ["fine"]
  ∧ ¬ ((shutdown_plugins (load_plugins [cFine])).1).plugins = [] := by
  decide

/-- C4 (amended).  `shutdown_plugins` attempts `shutdown` on every
registered plugin that has one — also when some of those raise — but
leaves the whole manager state, registry included, unchanged: the
registry is not cleared. -/
theorem shutdown_plugins_keeps_registry (st : ManagerState) :
    (shutdown_plugins st).1 = st
  ∧ (shutdown_plugins st).2.attempted
      = (st.plugins.filter fun p => p.2.hasShutdown).map Prod.fst :=
  shutdown_plugins_spec st

/-- C5, counterexample.  A candidate whose `setup` raises: `setup` was
invoked on it, it has a `shutdown` attribute, yet teardown attempts no
shutdown at all — because `load_plugins` registers a plugin only after
`setup` returns, the raising plugin is absent from the registry. -/
theorem raising_setup_no_shutdown :
    (load_plugins [cRaiser]).setupCalled = ["raiser"]
  ∧ cRaiser.hasShutdown = true
  ∧ (shutdown_plugins (load_plugins [cRaiser])).2.attempted = [] := by
  decide

/-- C5 (amended).  Under distinct candidate names, `setup` is invoked at
most once per candidate; `shutdown` is attempted at teardown exactly for
the plugins whose `setup` completed successfully (and that have a
`shutdown` attribute), each at most once, and only after its `setup`; a
plugin whose `setup` raised never has its `shutdown` invoked. -/
theorem setup_shutdown_discipline (cands : List Candidate)
    (hall : ∀ c ∈ cands, c.ispkg = true ∧ c.importOk = true ∧ c.hasSetup = true)
    (hnodup : (cands.map Candidate.name).Nodup) :
    (load_plugins cands).setupCalled = cands.map Candidate.name
  ∧ (load_plugins cands).setupCalled.Nodup
  ∧ (shutdown_plugins (load_plugins cands)).2.attempted
      = ((cands.filter setupSucceeds).filter fun c => c.hasShutdown).map Candidate.name
  ∧ (shutdown_plugins (load_plugins cands)).2.attempted.Nodup
  ∧ (∀ c ∈ cands, setupRaises c = true →
        c.name ∉ (shutdown_plugins (load_plugins cands)).2.attempted)
  ∧ (∀ n ∈ (shutdown_plugins (load_plugins cands)).2.attempted,
        n ∈ (load_plugins cands).setupCalled) := by
  obtain ⟨hreg, -, -, hcalled⟩ := load_plugins_spec cands hall hnodup
  have hatt : (shutdown_plugins (load_plugins cands)).2.attempted
      = ((cands.filter setupSucceeds).filter fun c => c.hasShutdown).map Candidate.name := by
    have h2 := (shutdown_plugins_spec (load_plugins cands)).2
    rw [h2, hreg, filter_map_comm]
    simp [List.map_map, Function.comp]
  have hsub : (((cands.filter setupSucceeds).filter fun c => c.hasShutdown).map
      Candidate.name).Sublist (cands.map Candidate.name) :=
    List.Sublist.map Candidate.name
      ((List.filter_sublist _).trans (List.filter_sublist _))
  refine ⟨hcalled, ?_, hatt, ?_, ?_, ?_⟩
  · rw [hcalled]; exact hnodup
  · rw [hatt]; exact hnodup.sublist hsub
  · intro c hc hr hmem
    rw [hatt] at hmem
    obtain ⟨c', hcmem, hcname⟩ := List.mem_map.mp hmem
    have hccands : c' ∈ cands :=
      List.mem_of_mem_filter (List.mem_of_mem_filter hcmem)
    have hcsucc : setupSucceeds c' = true :=
      List.of_mem_filter (List.mem_of_mem_filter hcmem)
    have hceq : c' = c := List.inj_on_of_nodup_map hnodup hccands hc hcname
    subst hceq
    cases hcs : c'.setup <;> simp [setupRaises, hcs] at hr
    simp [setupSucceeds, hcs] at hcsucc
  · intro n hn
    rw [hatt] at hn
    rw [hcalled]
    exact hsub.subset hn

/-- C5, witness: with one raising and one succeeding candidate, `setup`
runs on both, `shutdown` is attempted only on the succeeding one, and the
raiser's `shutdown` is never invoked. -/
theorem setup_shutdown_discipline_witness :
    (load_plugins [cRaiser, cFine]).setupCalled = ["raiser", "fine"]
  ∧ (shutdown_plugins (load_plugins [cRaiser, cFine])).2.attempted = ["fine"]
  ∧ "raiser" ∉ (shutdown_plugins (load_plugins [cRaiser, cFine])).2.attempted := by
  obtain ⟨h1, -, h3, -, h5, -⟩ :=
    setup_shutdown_discipline [cRaiser, cFine] (by decide) (by decide)
  refine ⟨by rw [h1]; decide, by rw [h3]; decide, ?_⟩
  exact h5 cRaiser (by decide) (by decide)

/-- C2 (code bug).  The plugin's `setup` stores the supervisor task
handle on the application state, but the `lifespan` teardown cancels and
awaits only the ip-tracker cleanup task, and the plugin's `shutdown`
cancels nothing: after teardown completes, the supervisor task has not
been cancelled, contradicting the required "no supervisor task still
running after teardown". -/
theorem supervisor_survives_teardown :
    (tv_setup (.raises "connection refused")).1.tv_connection_task
      = some "connection_monitor"
  ∧ (tv_shutdown (tv_setup (.raises "connection refused")).1).2 = []
  ∧ lifespan_teardown_cancelled (tv_shutdown (tv_setup (.raises "connection refused")).1).2
      = ["cleanup_ip_tracker"]
  ∧ "connection_monitor" ∉
      lifespan_teardown_cancelled (tv_shutdown (tv_setup (.raises "connection refused")).1).2 := by
  decide

/-- C6.  Every operational (data-serving) route of the TradingView
plugin, called while the global client is absent or not connected,
answers with the 503 "TradingView API not connected" `HTTPException` —
for every possible upstream outcome, so the upstream is never consulted
and the request neither hangs nor crashes. -/
theorem operational_routes_unavailable (tv : Option TVClient) (r : Route)
    (upstream : Except String Json)
    (hop : r.isOperational = true) (hready : clientReady tv = false) :
    handle tv r upstream = Response.httpError 503 "TradingView API not connected" := by
  cases r <;> simp_all [handle, Route.isOperational, notConnected]

/-- C6, witness: a missing client and a disconnected client each produce
the 503 rejection on concrete operational routes. -/
theorem operational_routes_unavailable_witness :
    handle none Route.symbols (.ok (Json.str "data"))
      = Response.httpError 503 "TradingView API not connected"
  ∧ handle (some { connected := false }) Route.chart (.error "boom")
      = Response.httpError 503 "TradingView API not connected" :=
  ⟨operational_routes_unavailable none Route.symbols (.ok (Json.str "data")) rfl rfl,
   operational_routes_unavailable (some { connected := false }) Route.chart (.error "boom")
     rfl rfl⟩

/-- The `connect` attempt on any failed probe leaves the client unchanged
and reports failure. -/
lemma connect_failed (c : TVClient) (o : ProbeOutcome) (h : failedProbe o = true) :
    connect c o = (c, false) := by
  cases o with
  | raises msg => rfl
  | status code =>
      simp [failedProbe] at h
      simp [connect, connectBody, h]

/-- Once the monitor observes a connected client it stays connected. -/
lemma monitor_mono (c0 : TVClient) (os : Nat → ProbeOutcome) (n k : Nat)
    (h : ((monitorRun c0 os n).1).connected = true) :
    ((monitorRun c0 os (n + k)).1).connected = true := by
  induction k with
  | zero => exact h
  | succ k ih =>
      rw [show n + (k + 1) = (n + k) + 1 from rfl]
      simp [monitorRun, monitorStep, ih]

/-- C7.  The connection supervisor: a raising connect attempt is caught
by `connect` and reported as `False` with the client unchanged; under any
number of consecutive failed attempts the loop keeps running with the
client still disconnected; `connect` is attempted exactly when the client
is disconnected; every iteration sleeps the same fixed 60 seconds (no
backoff); and as soon as one probe finds the upstream reachable the
client is connected from the next iteration on — one retry interval
later at most. -/
theorem connection_monitor_behaviour (os : Nat → ProbeOutcome) (c0 : TVClient)
    (h0 : c0.connected = false) :
    (∀ (c : TVClient) (msg : String),
        connectBody c (.raises msg) = .error msg ∧ connect c (.raises msg) = (c, false))
  ∧ (∀ n, (∀ i, i < n → failedProbe (os i) = true) →
        ((monitorRun c0 os n).1).connected = false)
  ∧ (∀ (c : TVClient) (o : ProbeOutcome),
        (c.connected = true → monitorStep c o = c)
      ∧ (c.connected = false → monitorStep c o = (connect c o).1))
  ∧ (∀ n, (monitorRun c0 os n).2 = sleepSeconds * n ∧ sleepSeconds = 60)
  ∧ (∀ t, os t = .status 200 → ∀ k, ((monitorRun c0 os (t + 1 + k)).1).connected = true) := by
  refine ⟨fun c msg => ⟨rfl, rfl⟩, ?_, ?_, ?_, ?_⟩
  · intro n
    induction n with
    | zero => intro _; exact h0
    | succ n ih =>
        intro hfail
        have hn := ih fun i hi => hfail i (Nat.lt_succ_of_lt hi)
        simp [monitorRun, monitorStep, hn,
          connect_failed (monitorRun c0 os n).1 (os n) (hfail n (Nat.lt_succ_self n))]
  · intro c o
    constructor
    · intro hc; simp [monitorStep, hc]
    · intro hc; simp [monitorStep, hc]
  · intro n
    refine ⟨?_, rfl⟩
    induction n with
    | zero => rfl
    | succ n ih => simp [monitorRun, ih, Nat.mul_succ]
  · intro t ht k
    by_cases hc : ((monitorRun c0 os t).1).connected = true
    · rw [show t + 1 + k = t + (1 + k) from by omega]
      exact monitor_mono c0 os t (1 + k) hc
    · have hstep : ((monitorRun c0 os (t + 1)).1).connected = true := by
        simp [monitorRun, monitorStep, hc, ht, connect, connectBody]
      exact monitor_mono c0 os (t + 1) k hstep

/-- Probe stream for the supervisor witness: two raising attempts, then a
reachable upstream. -/
def probesW : Nat → ProbeOutcome := fun i =>
  if i < 2 then ProbeOutcome.raises "connection refused" else ProbeOutcome.status 200

/-- C7, witness: starting disconnected against `probesW`, the client is
still disconnected after the two failed attempts, connected one iteration
after the upstream becomes reachable, and 180 seconds have been slept in
three iterations. -/
theorem connection_monitor_behaviour_witness :
    ((monitorRun { connected := false } probesW 2).1).connected = false
  ∧ ((monitorRun { connected := false } probesW 3).1).connected = true
  ∧ (monitorRun { connected := false } probesW 3).2 = 180 := by
  obtain ⟨-, h2, -, h4, h5⟩ :=
    connection_monitor_behaviour probesW { connected := false } rfl
  refine ⟨h2 2 ?_, h5 2 rfl 0, ?_⟩
  · intro i hi
    interval_cases i <;> rfl
  · have := (h4 3).1
    simpa [sleepSeconds] using this

/-- C8.  A candidate whose `setup` succeeds but returns a falsy router:
`loadOne` records it in the plugins registry but adds nothing to
`plugin_routers` and mounts nothing; consequently, starting from an empty
manager, the plugin is registered, unmounted, absent from
`plugin_routers`, and its `shutdown` is attempted by `shutdown_plugins`
when it has one. -/
theorem falsy_router_registered (st : ManagerState) (c : Candidate)
    (hp : c.ispkg = true) (hi : c.importOk = true) (hs : c.hasSetup = true)
    (hn : c.setup = SetupOutcome.returnsNone) :
    (loadOne st c).plugins = dictInsert c.name c st.plugins
  ∧ (loadOne st c).plugin_routers = st.plugin_routers
  ∧ (loadOne st c).mounted = st.mounted
  ∧ (load_plugins [c]).plugins = [(c.name, c)]
  ∧ (load_plugins [c]).plugin_routers = []
  ∧ (load_plugins [c]).mounted = []
  ∧ (c.hasShutdown = true →
        (shutdown_plugins (load_plugins [c])).2.attempted = [c.name]) := by
  refine ⟨?_, ?_, ?_, ?_, ?_, ?_, ?_⟩
  · simp [loadOne, hp, hi, hs, hn]
  · simp [loadOne, hp, hi, hs, hn]
  · simp [loadOne, hp, hi, hs, hn]
  · simp [load_plugins, loadOne, ManagerState.empty, hp, hi, hs, hn, dictInsert]
  · simp [load_plugins, loadOne, ManagerState.empty, hp, hi, hs, hn]
  · simp [load_plugins, loadOne, ManagerState.empty, hp, hi, hs, hn]
  · intro hsd
    by_cases hsr : c.shutdownRaises = true <;>
      simp [load_plugins, loadOne, shutdown_plugins, shutdownOne, ManagerState.empty,
        hp, hi, hs, hn, hsd, hsr, dictInsert]

/-- C8, witness: the concrete falsy-router candidate is registered but
not mounted, and its shutdown is attempted. -/
theorem falsy_router_registered_witness :
    (load_plugins [cAlphaNone]).plugins = [("alpha", cAlphaNone)]
  ∧ (load_plugins [cAlphaNone]).plugin_routers = []
  ∧ (load_plugins [cAlphaNone]).mounted = []
  ∧ (shutdown_plugins (load_plugins [cAlphaNone])).2.attempted = ["alpha"] := by
  obtain ⟨-, -, -, h4, h5, h6, h7⟩ :=
    falsy_router_registered ManagerState.empty cAlphaNone rfl rfl rfl rfl
  exact ⟨h4, h5, h6, h7 rfl⟩

/-- C9.  The `GET /status` route returns a normal response in every
client state: the body says "connected" exactly when the guard
`tv_client and tv_client.connected` holds — that is, when the client
exists and is connected — and "disconnected" otherwise, and the route
never produces an `HTTPException` (in particular never a 503). -/
theorem status_route_total (tv : Option TVClient) (upstream : Except String Json) :
    handle tv Route.statusRoute upstream
      = Response.ok (Json.obj [("status",
          Json.str (if clientReady tv then "connected" else "disconnected"))])
  ∧ (clientReady tv = true ↔ ∃ c, tv = some c ∧ c.connected = true)
  ∧ (∀ (code : Nat) (detail : String),
        handle tv Route.statusRoute upstream ≠ Response.httpError code detail) := by
  refine ⟨?_, ?_, ?_⟩
  · by_cases h : clientReady tv = true <;> simp [handle, h]
  · cases tv with
    | none => simp [clientReady]
    | some c => simp [clientReady]
  · intro code detail
    by_cases h : clientReady tv = true <;> simp [handle, h]

/-- C10.  Every data method of the client maps a raising upstream request
to the error dictionary instead of propagating the exception, and a
connected plugin whose upstream call fails therefore answers the HTTP
request with a normal (success-status) response carrying the error body. -/
theorem data_methods_wrap_errors (e : String) :
    TVClient.get_symbols (.error e) = errJson e
  ∧ TVClient.get_chart_data (.error e) = errJson e
  ∧ TVClient.get_simple_chart (.error e) = errJson e
  ∧ TVClient.get_replay_mode (.error e) = errJson e
  ∧ TVClient.login (.error e) = errJson e
  ∧ TVClient.search (.error e) = errJson e
  ∧ TVClient.get_drawings (.error e) = errJson e
  ∧ TVClient.get_from_to_data (.error e) = errJson e
  ∧ TVClient.get_built_in_indicator (.error e) = errJson e
  ∧ TVClient.get_custom_timeframe (.error e) = errJson e
  ∧ TVClient.get_graphic_indicator (.error e) = errJson e
  ∧ TVClient.get_multiple_sync_fetch (.error e) = errJson e
  ∧ TVClient.get_custom_chart_type (.error e) = errJson e
  ∧ TVClient.get_fake_replay_mode (.error e) = errJson e
  ∧ TVClient.get_private_indicators (.error e) = errJson e
  ∧ TVClient.manage_pine_permission (.error e) = errJson e
  ∧ TVClient.get_error_handling (.error e) = errJson e
  ∧ (∀ (c : TVClient), c.connected = true → ∀ (r : Route), r.isOperational = true →
        handle (some c) r (.error e) = Response.ok (errJson e)) := by
  refine ⟨rfl, rfl, rfl, rfl, rfl, rfl, rfl, rfl, rfl, rfl, rfl, rfl, rfl, rfl, rfl,
    rfl, rfl, ?_⟩
  intro c hc r hr
  cases r <;> simp_all [handle, clientReady, Route.isOperational,
    TVClient.get_symbols, TVClient.get_chart_data, TVClient.get_simple_chart,
    TVClient.get_replay_mode, TVClient.login, TVClient.search, TVClient.get_drawings,
    TVClient.get_from_to_data, TVClient.get_built_in_indicator,
    TVClient.get_custom_timeframe, TVClient.get_graphic_indicator,
    TVClient.get_multiple_sync_fetch, TVClient.get_custom_chart_type,
    TVClient.get_fake_replay_mode, TVClient.get_private_indicators,
    TVClient.manage_pine_permission, TVClient.get_error_handling]

/-- C10, witness: the concrete upstream failure "boom" is answered as a
normal response with the error body on a connected client. -/
theorem data_methods_wrap_errors_witness :
    TVClient.get_symbols (.error "boom") = errJson "boom"
  ∧ handle (some { connected := true }) Route.chart (.error "boom")
      = Response.ok (errJson "boom") := by
  obtain ⟨h1, -, -, -, -, -, -, -, -, -, -, -, -, -, -, -, -, hlast⟩ :=
    data_methods_wrap_errors "boom"
  exact ⟨h1, hlast { connected := true } rfl Route.chart rfl⟩

end Starferry
